import Mathlib

/-!
Verification of the slow-steaming optimization core.

This file gives a shallow embedding, over exact rational arithmetic, of the
speed–cost–emissions core of the repository: the cubic fuel-consumption law,
the two emissions models, the CII rating and compliance forecast
(`src/utils/emissions.py`), the speed optimizer and speed-profile generator
(`src/utils/optimization.py`), and the route transit-time helper
(`src/models/route.py`).  Python floats are modelled as `ℚ`; a Python function
that can raise `ZeroDivisionError` is modelled as an `Option`-valued function
returning `none` exactly when one of its divisions has a zero divisor, in the
order the source performs them.  The call to `scipy.optimize.minimize`
(L-BFGS-B, bounded) inside `optimize_speed` cannot be embedded; the speed it
returns (`result.x[0]`) is taken as an explicit argument `solver_speed`, and
theorems about the optimizer assume the solver contract (the returned speed
lies in the given bounds and minimizes the objective there).
-/

namespace SlowSteaming

/-- Vessel data, as consumed by the core via `vessel_data.get(key, default)`
(`src/models/vessel.py`, `src/utils/optimization.py`, `src/utils/emissions.py`).
Each field holds the value the corresponding `.get` call yields, so a dict
missing a key is represented by a record carrying that key's default
(`type` default "Container Ship", `deadweight` 100000, `design_speed` 20,
`design_consumption` 180). -/
structure VesselData where
  type : String
  deadweight : ℚ
  design_speed : ℚ
  design_consumption : ℚ
deriving DecidableEq

/-- `calculate_fuel_consumption` (`src/utils/optimization.py` lines 5–24):
cubic law `design_consumption * (speed / design_speed) ** 3`.  In Python the
division raises when `design_speed = 0`; callers that can hit that case guard
it explicitly below, and theorems about this pure version hypothesize
`design_speed > 0` where the claim does. -/
def calculate_fuel_consumption (speed : ℚ) (vessel_data : VesselData) : ℚ :=
  vessel_data.design_consumption * (speed / vessel_data.design_speed) ^ 3

/-- Emissions dict returned by the optimizer-internal `calculate_emissions`
(keys CO2, SOx, NOx). -/
structure Emissions3 where
  CO2 : ℚ
  SOx : ℚ
  NOx : ℚ
deriving DecidableEq

/-- `calculate_emissions` (`src/utils/optimization.py` lines 26–50) on its
default factor table (every call site in the repository passes
`emission_factors=None`, so the default dict CO2=3114000, SOx=54000,
NOx=57000 g/ton applies; each pollutant is `fuel_consumption * factor / 1000000`). -/
def calculate_emissions (fuel_consumption : ℚ) : Emissions3 :=
  ⟨fuel_consumption * 3114000 / 1000000,
   fuel_consumption * 54000 / 1000000,
   fuel_consumption * 57000 / 1000000⟩

/-- Emissions dict returned by `calculate_detailed_emissions`
(keys CO2, SOx, NOx, PM). -/
structure Emissions4 where
  CO2 : ℚ
  SOx : ℚ
  NOx : ℚ
  PM : ℚ
deriving DecidableEq

/-- The per-fuel-type factor table of `calculate_detailed_emissions`
(`src/utils/emissions.py` lines 16–45): dict keyed by VLSFO/MGO/LSFO/HFO,
looked up with `.get(fuel_type, emission_factors['VLSFO'])`, so any unknown
fuel type falls back to the VLSFO row. -/
def emission_factors (fuel_type : String) : Emissions4 :=
  if fuel_type = "VLSFO" then ⟨3114000, 10000, 57000, 1400⟩
  else if fuel_type = "MGO" then ⟨3206000, 2000, 60000, 1000⟩
  else if fuel_type = "LSFO" then ⟨3114000, 20000, 57000, 1800⟩
  else if fuel_type = "HFO" then ⟨3114000, 70000, 57000, 2400⟩
  else ⟨3114000, 10000, 57000, 1400⟩

/-- `calculate_detailed_emissions` (`src/utils/emissions.py` lines 5–52):
each pollutant is `fuel_consumption * factor / 1000000` with the factor row
selected by `emission_factors`. -/
def calculate_detailed_emissions (fuel_consumption : ℚ) (fuel_type : String) : Emissions4 :=
  let factors := emission_factors fuel_type
  ⟨fuel_consumption * factors.CO2 / 1000000,
   fuel_consumption * factors.SOx / 1000000,
   fuel_consumption * factors.NOx / 1000000,
   fuel_consumption * factors.PM / 1000000⟩

/-- The `reference_values` table of `calculate_cii_rating`
(`src/utils/emissions.py` lines 82–90): per-ship-type reference AER, looked up
with `.get(ship_type, 10.0)`. -/
def reference_aer (ship_type : String) : ℚ :=
  if ship_type = "Container Ship" then 23/2
  else if ship_type = "Bulk Carrier" then 7
  else if ship_type = "Oil Tanker" then 51/10
  else if ship_type = "Gas Carrier" then 89/10
  else if ship_type = "General Cargo" then 153/10
  else 10

/-- The rating if-chain of `calculate_cii_rating`
(`src/utils/emissions.py` lines 96–105). -/
def cii_rating_of_ratio (cii_ratio : ℚ) : String :=
  if cii_ratio < 86/100 then "A"
  else if cii_ratio < 93/100 then "B"
  else if cii_ratio < 103/100 then "C"
  else if cii_ratio < 110/100 then "D"
  else "E"

/-- Result dict of `calculate_cii_rating`. -/
structure CIIResult where
  co2_emissions : ℚ
  transport_work : ℚ
  aer : ℚ
  reference_aer : ℚ
  cii_ratio : ℚ
  rating : String
deriving DecidableEq

/-- `calculate_cii_rating` (`src/utils/emissions.py` lines 54–114).
`co2_emissions = annual_fuel * 3.114`; `transport_work = deadweight *
annual_distance * cargo_capacity_utilization`; `aer = co2_emissions * 1000000
/ transport_work` — in Python this division raises `ZeroDivisionError` when
`transport_work` is zero, modelled here as `none`.  The Python default
`cargo_capacity_utilization=0.7` is passed explicitly (`7/10`) by callers that
omit it. -/
def calculate_cii_rating (vessel_data : VesselData) (annual_distance annual_fuel : ℚ)
    (cargo_capacity_utilization : ℚ) : Option CIIResult :=
  let co2_emissions := annual_fuel * (3114/1000)
  let deadweight := vessel_data.deadweight
  let transport_work := deadweight * annual_distance * cargo_capacity_utilization
  if transport_work = 0 then none
  else
    let aer := co2_emissions * 1000000 / transport_work
    let ref := reference_aer vessel_data.type
    let cii_ratio := aer / ref
    some ⟨co2_emissions, transport_work, aer, ref, cii_ratio, cii_rating_of_ratio cii_ratio⟩

/-- One branch of the compliance forecast's result dict
(the `current_scenario` / `proposed_scenario` entries of
`calculate_compliance_forecast`): speed, annual fuel, CII ratio and rating. -/
structure ForecastCase where
  speed : ℚ
  annual_fuel : ℚ
  cii_ratio : ℚ
  cii_rating : String
deriving DecidableEq

/-- The `savings` entry of the compliance forecast's result dict. -/
structure ForecastSavings where
  fuel_savings : ℚ
  emission_savings : ℚ
  percentage_reduction : ℚ
deriving DecidableEq

/-- Result dict of `calculate_compliance_forecast`; `current` and `proposed`
are the `current_scenario` and `proposed_scenario` entries. -/
structure ComplianceForecast where
  current : ForecastCase
  proposed : ForecastCase
  savings : ForecastSavings
deriving DecidableEq

/-- `calculate_compliance_forecast` (`src/utils/emissions.py` lines 116–167).
The guards are the source's divisions in evaluation order:
`calculate_fuel_consumption` divides by `design_speed` (line 130), the annual
times divide by `current_speed * 24` and `proposed_speed * 24` (lines
134–135), `calculate_cii_rating` divides by `transport_work` (line 75, with
the default utilization 0.7), and `percentage_reduction` divides by
`current_annual_fuel` (line 165).  Each such Python `ZeroDivisionError` is
`none` here. -/
def calculate_compliance_forecast (vessel_data : VesselData)
    (current_speed proposed_speed annual_distance : ℚ) : Option ComplianceForecast :=
  if vessel_data.design_speed = 0 then none
  else
    let current_daily_consumption := calculate_fuel_consumption current_speed vessel_data
    let proposed_daily_consumption := calculate_fuel_consumption proposed_speed vessel_data
    if current_speed * 24 = 0 then none
    else if proposed_speed * 24 = 0 then none
    else
      let current_annual_time := annual_distance / (current_speed * 24)
      let proposed_annual_time := annual_distance / (proposed_speed * 24)
      let current_annual_fuel := current_daily_consumption * current_annual_time
      let proposed_annual_fuel := proposed_daily_consumption * proposed_annual_time
      (calculate_cii_rating vessel_data annual_distance current_annual_fuel (7/10)).bind
        fun current_cii =>
      (calculate_cii_rating vessel_data annual_distance proposed_annual_fuel (7/10)).bind
        fun proposed_cii =>
      let fuel_savings := current_annual_fuel - proposed_annual_fuel
      let emission_savings := current_cii.co2_emissions - proposed_cii.co2_emissions
      if current_annual_fuel = 0 then none
      else
        some ⟨⟨current_speed, current_annual_fuel, current_cii.cii_ratio, current_cii.rating⟩,
              ⟨proposed_speed, proposed_annual_fuel, proposed_cii.cii_ratio, proposed_cii.rating⟩,
              ⟨fuel_savings, emission_savings, fuel_savings / current_annual_fuel * 100⟩⟩

/-- The `objective_function` closure inside `optimize_speed`
(`src/utils/optimization.py` lines 85–97): total voyage cost at a given speed. -/
def objective_function (vessel_data : VesselData)
    (route_distance fuel_price vessel_day_cost : ℚ) (speed_value : ℚ) : ℚ :=
  let transit_time := route_distance / (speed_value * 24)
  let daily_fuel := calculate_fuel_consumption speed_value vessel_data
  let total_fuel := daily_fuel * transit_time
  let fuel_cost := total_fuel * fuel_price
  let time_cost := transit_time * vessel_day_cost
  fuel_cost + time_cost

/-- The `comparison` entry of `optimize_speed`'s result dict (the design-speed
baseline, lines 120–129 and 149–155 of `src/utils/optimization.py`). -/
structure OptimizationComparison where
  design_speed : ℚ
  design_transit_time : ℚ
  design_fuel_consumption : ℚ
  design_cost : ℚ
  design_emissions : Emissions3
deriving DecidableEq

/-- Result dict of `optimize_speed` (`src/utils/optimization.py` lines 137–156). -/
structure OptimizationResult where
  optimal_speed : ℚ
  transit_time : ℚ
  daily_fuel_consumption : ℚ
  total_fuel_consumption : ℚ
  fuel_cost : ℚ
  time_cost : ℚ
  total_cost : ℚ
  emissions : Emissions3
  fuel_savings : ℚ
  cost_savings : ℚ
  co2_reduction : ℚ
  comparison : OptimizationComparison
deriving DecidableEq

/-- The result dict `optimize_speed` assembles from the solver's speed
(`src/utils/optimization.py` lines 108–156): the cost/emissions pipeline
evaluated at `optimal_speed` plus the design-speed comparison baseline. -/
def optimize_speed_result (vessel_data : VesselData)
    (route_distance fuel_price vessel_day_cost : ℚ)
    (optimal_speed : ℚ) : OptimizationResult :=
  let transit_time := route_distance / (optimal_speed * 24)
  let daily_fuel := calculate_fuel_consumption optimal_speed vessel_data
  let total_fuel := daily_fuel * transit_time
  let emissions := calculate_emissions total_fuel
  let fuel_cost := total_fuel * fuel_price
  let time_cost := transit_time * vessel_day_cost
  let total_cost := fuel_cost + time_cost
  let design_speed := vessel_data.design_speed
  let design_transit_time := route_distance / (design_speed * 24)
  let design_daily_fuel := calculate_fuel_consumption design_speed vessel_data
  let design_total_fuel := design_daily_fuel * design_transit_time
  let design_emissions := calculate_emissions design_total_fuel
  let design_fuel_cost := design_total_fuel * fuel_price
  let design_time_cost := design_transit_time * vessel_day_cost
  let design_total_cost := design_fuel_cost + design_time_cost
  ⟨optimal_speed, transit_time, daily_fuel, total_fuel, fuel_cost, time_cost, total_cost,
   emissions,
   design_total_fuel - total_fuel,
   design_total_cost - total_cost,
   design_emissions.CO2 - emissions.CO2,
   ⟨design_speed, design_transit_time, design_total_fuel, design_total_cost,
    design_emissions⟩⟩

/-- `optimize_speed` (`src/utils/optimization.py` lines 70–158).  The
`scipy.optimize.minimize(objective_function, [initial_speed], bounds,
method='L-BFGS-B')` call is not embeddable; `solver_speed` stands for the
speed it returns (`result.x[0]`), and `min_speed`/`max_speed` are the bounds
handed to the solver.  The source performs no input validation of its own,
but L-BFGS-B itself rejects inverted bounds with a `ValueError` ("one of the
lower bounds is greater than an upper bound") before returning any speed, so
`max_speed < min_speed` is `none` here.  Beyond that the failure modes are
the divisions by `design_speed` (via `calculate_fuel_consumption`, and the
design baseline's transit time) and by `optimal_speed * 24` (line 109),
modelled as `none`; objective evaluations during the solve itself are
abstracted into `solver_speed`. -/
def optimize_speed (vessel_data : VesselData)
    (route_distance fuel_price vessel_day_cost : ℚ)
    (min_speed max_speed : ℚ) (solver_speed : ℚ) : Option OptimizationResult :=
  if max_speed < min_speed then none
  else if vessel_data.design_speed = 0 then none
  else if solver_speed * 24 = 0 then none
  else
    some (optimize_speed_result vessel_data route_distance fuel_price vessel_day_cost
      solver_speed)

/-- Exact model of `numpy.arange(start, stop, step)` for `step > 0`: the list
`start + i * step` for `0 ≤ i < ⌈(stop - start) / step⌉` (empty when the
ceiling is nonpositive). -/
def arange (start stop step : ℚ) : List ℚ :=
  (List.range (Int.toNat ⌈(stop - start) / step⌉)).map (fun i : ℕ => start + (i : ℚ) * step)

/-- One row of the DataFrame built by `generate_speed_profile`
(`src/utils/optimization.py` lines 190–201). -/
structure SpeedProfilePoint where
  speed : ℚ
  transit_time : ℚ
  daily_fuel : ℚ
  total_fuel : ℚ
  fuel_cost : ℚ
  time_cost : ℚ
  total_cost : ℚ
  co2_emissions : ℚ
  sox_emissions : ℚ
  nox_emissions : ℚ
deriving DecidableEq

/-- The loop body of `generate_speed_profile`
(`src/utils/optimization.py` lines 179–201): the row computed at one sampled
speed. -/
def profile_row (vessel_data : VesselData)
    (route_distance fuel_price vessel_day_cost : ℚ) (speed : ℚ) : SpeedProfilePoint :=
  let transit_time := route_distance / (speed * 24)
  let daily_fuel := calculate_fuel_consumption speed vessel_data
  let total_fuel := daily_fuel * transit_time
  let emissions := calculate_emissions total_fuel
  let fuel_cost := total_fuel * fuel_price
  let time_cost := transit_time * vessel_day_cost
  ⟨speed, transit_time, daily_fuel, total_fuel, fuel_cost, time_cost, fuel_cost + time_cost,
   emissions.CO2, emissions.SOx, emissions.NOx⟩

/-- `generate_speed_profile` (`src/utils/optimization.py` lines 160–203):
`speeds = np.arange(min_speed, max_speed + step, step)`, one row per sampled
speed. -/
def generate_speed_profile (vessel_data : VesselData)
    (route_distance fuel_price vessel_day_cost : ℚ)
    (min_speed max_speed step : ℚ) : List SpeedProfilePoint :=
  (arange min_speed (max_speed + step) step).map
    (profile_row vessel_data route_distance fuel_price vessel_day_cost)

/-- Route record (`src/models/route.py`); only the fields `get_transit_time`
reads are modelled. -/
structure Route where
  name : String
  distance : ℚ
deriving DecidableEq

/-- Return value of `Route.get_transit_time`: either the Python float
`float('inf')` or a finite number of days. -/
inductive TransitTime where
  | infinite : TransitTime
  | finite : ℚ → TransitTime
deriving DecidableEq

/-- `Route.get_transit_time` (`src/models/route.py` lines 33–45): returns
`float('inf')` for `speed <= 0`, else `distance / (speed * 24)`. -/
def Route.get_transit_time (route : Route) (speed : ℚ) : TransitTime :=
  if speed ≤ 0 then TransitTime.infinite
  else TransitTime.finite (route.distance / (speed * 24))

/-- The concrete vessel used in the spec's test scenarios: Container Ship,
deadweight 100000, design speed 20 kn, design consumption 180 t/day. -/
def v0 : VesselData :=
  ⟨"Container Ship", 100000, 20, 180⟩

/-- Evaluation lemma: on nonzero transport work, `calculate_cii_rating`
returns its result dict with every field spelled out. -/
lemma calculate_cii_rating_eq (v : VesselData) (d f u : ℚ)
    (h : v.deadweight * d * u ≠ 0) :
    calculate_cii_rating v d f u
      = some ⟨f * (3114/1000), v.deadweight * d * u,
          f * (3114/1000) * 1000000 / (v.deadweight * d * u),
          reference_aer v.type,
          f * (3114/1000) * 1000000 / (v.deadweight * d * u) / reference_aer v.type,
          cii_rating_of_ratio
            (f * (3114/1000) * 1000000 / (v.deadweight * d * u) / reference_aer v.type)⟩ := by
  simp only [calculate_cii_rating]
  rw [if_neg h]

/-- C7: for every vessel with positive design speed and every speed,
`calculate_fuel_consumption` computes `design_consumption * (speed /
design_speed) ^ 3`, and at the design speed it returns exactly the design
consumption. -/
theorem fuel_consumption_cubic_law (v : VesselData) (speed : ℚ)
    (hds : 0 < v.design_speed) :
    calculate_fuel_consumption speed v
        = v.design_consumption * (speed / v.design_speed) ^ 3 ∧
    calculate_fuel_consumption v.design_speed v = v.design_consumption := by
  refine ⟨rfl, ?_⟩
  unfold calculate_fuel_consumption
  rw [div_self (ne_of_gt hds), one_pow, mul_one]

/-- Witness for `fuel_consumption_cubic_law` at the sample vessel and 10 kn. -/
theorem fuel_consumption_cubic_law_witness :
    0 < v0.design_speed ∧
    (calculate_fuel_consumption 10 v0
        = v0.design_consumption * ((10 : ℚ) / v0.design_speed) ^ 3 ∧
     calculate_fuel_consumption v0.design_speed v0 = v0.design_consumption) :=
  ⟨by norm_num [v0], fuel_consumption_cubic_law v0 10 (by norm_num [v0])⟩

/-- C10: `Route.get_transit_time` is total: it returns `float('inf')` for every
nonpositive speed instead of raising, and `distance / (speed * 24)` for every
positive speed. -/
theorem get_transit_time_total (route : Route) (speed : ℚ) :
    (speed ≤ 0 → route.get_transit_time speed = TransitTime.infinite) ∧
    (0 < speed →
      route.get_transit_time speed
        = TransitTime.finite (route.distance / (speed * 24))) := by
  constructor
  · intro h
    simp [Route.get_transit_time, h]
  · intro h
    simp [Route.get_transit_time, not_le.mpr h]

/-- Witness for `get_transit_time_total` at speeds −1 and 10 on a concrete
route. -/
theorem get_transit_time_total_witness :
    ((-1 : ℚ) ≤ 0 ∧
      (Route.mk "Rotterdam-Singapore" 8200).get_transit_time (-1)
        = TransitTime.infinite) ∧
    ((0 : ℚ) < 10 ∧
      (Route.mk "Rotterdam-Singapore" 8200).get_transit_time 10
        = TransitTime.finite (8200 / (10 * 24))) :=
  ⟨⟨by norm_num, (get_transit_time_total _ _).1 (by norm_num)⟩,
   ⟨by norm_num, (get_transit_time_total _ _).2 (by norm_num)⟩⟩

/-- C6 (amended): `calculate_cii_rating` fails exactly when the transport work
`deadweight * annual_distance * utilization` equals zero; a strictly negative
transport work is not rejected. -/
theorem cii_rating_none_iff_zero_transport_work (v : VesselData)
    (annual_distance annual_fuel u : ℚ) :
    calculate_cii_rating v annual_distance annual_fuel u = none
      ↔ v.deadweight * annual_distance * u = 0 := by
  simp only [calculate_cii_rating]
  split_ifs with h
  · simp [h]
  · simp [h]

/-- C6 (counterexample to the claim as stated): with a negative annual
distance the transport work is strictly negative — not strictly positive — yet
`calculate_cii_rating` returns a result instead of failing. -/
theorem cii_rating_negative_transport_work_returns_result :
    v0.deadweight * (-100000 : ℚ) * (7/10) < 0 ∧
    (calculate_cii_rating v0 (-100000) 5000 (7/10)).isSome = true := by
  constructor
  · norm_num [v0]
  · have h : v0.deadweight * (-100000 : ℚ) * (7/10) ≠ 0 := by norm_num [v0]
    simp only [calculate_cii_rating]
    rw [if_neg h]
    rfl

/-- C8: the detailed emissions operation computes each of CO2/SOx/NOx/PM as
`fuelTons * factor / 1000000` with the per-fuel-type table for
VLSFO/MGO/LSFO/HFO, silently using the VLSFO row for any unknown fuel type,
while the optimizer's simplified operation returns only CO2/SOx/NOx with the
flat factors 3114000/54000/57000 independent of fuel type. -/
theorem emissions_factor_tables (fuel : ℚ) :
    calculate_detailed_emissions fuel "VLSFO"
        = ⟨fuel * 3114000 / 1000000, fuel * 10000 / 1000000,
           fuel * 57000 / 1000000, fuel * 1400 / 1000000⟩ ∧
    calculate_detailed_emissions fuel "MGO"
        = ⟨fuel * 3206000 / 1000000, fuel * 2000 / 1000000,
           fuel * 60000 / 1000000, fuel * 1000 / 1000000⟩ ∧
    calculate_detailed_emissions fuel "LSFO"
        = ⟨fuel * 3114000 / 1000000, fuel * 20000 / 1000000,
           fuel * 57000 / 1000000, fuel * 1800 / 1000000⟩ ∧
    calculate_detailed_emissions fuel "HFO"
        = ⟨fuel * 3114000 / 1000000, fuel * 70000 / 1000000,
           fuel * 57000 / 1000000, fuel * 2400 / 1000000⟩ ∧
    (∀ ft : String, ft ≠ "VLSFO" → ft ≠ "MGO" → ft ≠ "LSFO" → ft ≠ "HFO" →
      calculate_detailed_emissions fuel ft = calculate_detailed_emissions fuel "VLSFO") ∧
    calculate_emissions fuel
        = ⟨fuel * 3114000 / 1000000, fuel * 54000 / 1000000,
           fuel * 57000 / 1000000⟩ := by
  refine ⟨?_, ?_, ?_, ?_, ?_, rfl⟩
  · simp [calculate_detailed_emissions, emission_factors]
  · simp [calculate_detailed_emissions, emission_factors]
  · simp [calculate_detailed_emissions, emission_factors]
  · simp [calculate_detailed_emissions, emission_factors]
  · intro ft h1 h2 h3 h4
    simp [calculate_detailed_emissions, emission_factors, h1, h2, h3, h4]

/-- Witness for `emissions_factor_tables`: an unknown fuel type at 100 tons
falls back to the VLSFO factors. -/
theorem emissions_factor_tables_witness :
    ("UNKNOWN" ≠ "VLSFO" ∧ "UNKNOWN" ≠ "MGO" ∧ "UNKNOWN" ≠ "LSFO" ∧ "UNKNOWN" ≠ "HFO") ∧
    calculate_detailed_emissions 100 "UNKNOWN" = calculate_detailed_emissions 100 "VLSFO" :=
  ⟨⟨by decide, by decide, by decide, by decide⟩,
   (emissions_factor_tables 100).2.2.2.2.1 "UNKNOWN"
     (by decide) (by decide) (by decide) (by decide)⟩

/-- C5: the rating returned by the CII model is exactly the threshold function
of `cii_ratio`, with every boundary value falling in the higher (worse) band:
below 0.86 gives A, [0.86, 0.93) gives B, [0.93, 1.03) gives C, [1.03, 1.10)
gives D, and 1.10 upward gives E; and every successful `calculate_cii_rating`
result carries `cii_rating_of_ratio` of its own `cii_ratio` as its rating. -/
theorem cii_rating_threshold_bands (v : VesselData) (d f u : ℚ) (res : CIIResult)
    (hres : calculate_cii_rating v d f u = some res) :
    res.rating = cii_rating_of_ratio res.cii_ratio ∧
    ∀ r : ℚ,
      (cii_rating_of_ratio r = "A" ↔ r < 86/100) ∧
      (cii_rating_of_ratio r = "B" ↔ 86/100 ≤ r ∧ r < 93/100) ∧
      (cii_rating_of_ratio r = "C" ↔ 93/100 ≤ r ∧ r < 103/100) ∧
      (cii_rating_of_ratio r = "D" ↔ 103/100 ≤ r ∧ r < 110/100) ∧
      (cii_rating_of_ratio r = "E" ↔ 110/100 ≤ r) := by
  constructor
  · simp only [calculate_cii_rating] at hres
    split_ifs at hres with h <;> cases hres <;> rfl
  · intro r
    unfold cii_rating_of_ratio
    split_ifs with h1 h2 h3 h4 <;>
      refine ⟨?_, ?_, ?_, ?_, ?_⟩ <;>
      constructor <;>
      intro hx <;>
      first
        | rfl
        | linarith
        | (exact absurd hx (by decide))
        | (exact absurd hx.2 (by linarith))
        | (exact ⟨by linarith, by linarith⟩)

/-- Witness for `cii_rating_threshold_bands` at a concrete successful CII
computation. -/
theorem cii_rating_threshold_bands_witness :
    ∃ res, calculate_cii_rating v0 100000 15000 (7/10) = some res ∧
      res.rating = cii_rating_of_ratio res.cii_ratio := by
  have hne : v0.deadweight * (100000 : ℚ) * (7/10) ≠ 0 := by norm_num [v0]
  have hres := calculate_cii_rating_eq v0 100000 15000 (7/10) hne
  exact ⟨_, hres, (cii_rating_threshold_bands v0 100000 15000 (7/10) _ hres).1⟩

/-- Evaluation lemma: when none of its divisors vanish,
`calculate_compliance_forecast` returns its result dict with every field
spelled out. -/
lemma calculate_compliance_forecast_eq (v : VesselData) (cs ps d : ℚ)
    (hds : v.design_speed ≠ 0) (hcs : cs ≠ 0) (hps : ps ≠ 0)
    (htw : v.deadweight * d * (7/10) ≠ 0)
    (hcaf : calculate_fuel_consumption cs v * (d / (cs * 24)) ≠ 0) :
    calculate_compliance_forecast v cs ps d
      = some
          ⟨⟨cs, calculate_fuel_consumption cs v * (d / (cs * 24)),
            calculate_fuel_consumption cs v * (d / (cs * 24)) * (3114/1000) * 1000000
                / (v.deadweight * d * (7/10)) / reference_aer v.type,
            cii_rating_of_ratio
              (calculate_fuel_consumption cs v * (d / (cs * 24)) * (3114/1000) * 1000000
                / (v.deadweight * d * (7/10)) / reference_aer v.type)⟩,
           ⟨ps, calculate_fuel_consumption ps v * (d / (ps * 24)),
            calculate_fuel_consumption ps v * (d / (ps * 24)) * (3114/1000) * 1000000
                / (v.deadweight * d * (7/10)) / reference_aer v.type,
            cii_rating_of_ratio
              (calculate_fuel_consumption ps v * (d / (ps * 24)) * (3114/1000) * 1000000
                / (v.deadweight * d * (7/10)) / reference_aer v.type)⟩,
           ⟨calculate_fuel_consumption cs v * (d / (cs * 24))
                - calculate_fuel_consumption ps v * (d / (ps * 24)),
            calculate_fuel_consumption cs v * (d / (cs * 24)) * (3114/1000)
                - calculate_fuel_consumption ps v * (d / (ps * 24)) * (3114/1000),
            (calculate_fuel_consumption cs v * (d / (cs * 24))
                - calculate_fuel_consumption ps v * (d / (ps * 24)))
              / (calculate_fuel_consumption cs v * (d / (cs * 24))) * 100⟩⟩ := by
  simp only [calculate_compliance_forecast]
  rw [if_neg hds, if_neg (mul_ne_zero hcs (by norm_num)),
      if_neg (mul_ne_zero hps (by norm_num)),
      calculate_cii_rating_eq v d _ (7/10) htw,
      calculate_cii_rating_eq v d _ (7/10) htw]
  simp only [Option.some_bind']
  rw [if_neg hcaf]

/-- C9 (amended): the compliance forecast fails when `currentSpeed = 0` or
`proposedSpeed = 0` (the annual-time divisions raise); negative speeds are not
rejected. -/
theorem compliance_forecast_zero_speed_fails (v : VesselData) (cs ps d : ℚ)
    (h : cs = 0 ∨ ps = 0) :
    calculate_compliance_forecast v cs ps d = none := by
  rcases h with h | h <;> subst h <;> simp [calculate_compliance_forecast]

/-- Witness for `compliance_forecast_zero_speed_fails` at a zero current
speed. -/
theorem compliance_forecast_zero_speed_fails_witness :
    ((0:ℚ) = 0 ∨ (15:ℚ) = 0) ∧
    calculate_compliance_forecast v0 0 15 100000 = none :=
  ⟨Or.inl rfl, compliance_forecast_zero_speed_fails v0 0 15 100000 (Or.inl rfl)⟩

/-- C9 (counterexample to the claim as stated): a negative current speed is
nonpositive, yet `calculate_compliance_forecast` returns a forecast instead of
failing. -/
theorem compliance_forecast_accepts_negative_speed :
    (-18 : ℚ) ≤ 0 ∧
    (calculate_compliance_forecast v0 (-18) 15 100000).isSome = true := by
  refine ⟨by norm_num, ?_⟩
  have hcaf : calculate_fuel_consumption (-18 : ℚ) v0 * ((100000 : ℚ) / ((-18) * 24)) ≠ 0 := by
    norm_num [calculate_fuel_consumption, v0]
  rw [calculate_compliance_forecast_eq v0 (-18) 15 100000 (by norm_num [v0])
      (by norm_num) (by norm_num) (by norm_num [v0]) hcaf]
  rfl

/-- C4: for every vessel satisfying the data model's positivity invariants
(positive design speed, design consumption and deadweight) and every pair of
speeds `0 < proposedSpeed < currentSpeed` with positive annual distance, the
compliance forecast succeeds with strictly positive fuel and emission savings;
and at `currentSpeed = 18`, `proposedSpeed = 15` the annual-fuel ratio
proposed/current equals `(15/18)^2`. -/
theorem compliance_forecast_savings_positive (v : VesselData) (cs ps d : ℚ)
    (hds : 0 < v.design_speed) (hdc : 0 < v.design_consumption)
    (hdw : 0 < v.deadweight) (hps : 0 < ps) (hlt : ps < cs) (hd : 0 < d) :
    ∃ f, calculate_compliance_forecast v cs ps d = some f ∧
      0 < f.savings.fuel_savings ∧ 0 < f.savings.emission_savings ∧
      (cs = 18 → ps = 15 →
        f.proposed.annual_fuel / f.current.annual_fuel = (15/18) ^ 2) := by
  have hcs : (0:ℚ) < cs := hps.trans hlt
  have hds0 : v.design_speed ≠ 0 := ne_of_gt hds
  have hdc0 : v.design_consumption ≠ 0 := ne_of_gt hdc
  have hd0 : d ≠ 0 := ne_of_gt hd
  have key : ∀ s : ℚ, s ≠ 0 →
      calculate_fuel_consumption s v * (d / (s * 24))
        = v.design_consumption * d * s ^ 2 / (24 * v.design_speed ^ 3) := by
    intro s hs
    unfold calculate_fuel_consumption
    field_simp
    ring
  have hden : (0:ℚ) < 24 * v.design_speed ^ 3 := by
    have := pow_pos hds 3
    nlinarith
  have hcafpos : 0 < calculate_fuel_consumption cs v * (d / (cs * 24)) := by
    rw [key cs (ne_of_gt hcs)]
    apply div_pos _ hden
    have h2 : (0:ℚ) < cs ^ 2 := pow_pos hcs 2
    nlinarith [mul_pos (mul_pos hdc hd) h2]
  have hdiff : 0 < calculate_fuel_consumption cs v * (d / (cs * 24))
      - calculate_fuel_consumption ps v * (d / (ps * 24)) := by
    rw [key cs (ne_of_gt hcs), key ps (ne_of_gt hps), div_sub_div_same]
    apply div_pos _ hden
    have h2 : ps ^ 2 < cs ^ 2 := by nlinarith
    nlinarith [mul_pos hdc hd]
  refine ⟨_, calculate_compliance_forecast_eq v cs ps d hds0 (ne_of_gt hcs)
      (ne_of_gt hps) (ne_of_gt (by positivity)) (ne_of_gt hcafpos), ?_, ?_, ?_⟩
  · exact hdiff
  · show 0 < calculate_fuel_consumption cs v * (d / (cs * 24)) * (3114/1000)
        - calculate_fuel_consumption ps v * (d / (ps * 24)) * (3114/1000)
    nlinarith [hdiff]
  · intro h18 h15
    subst h18
    subst h15
    show calculate_fuel_consumption 15 v * (d / (15 * 24))
        / (calculate_fuel_consumption 18 v * (d / (18 * 24))) = ((15:ℚ)/18) ^ 2
    rw [key 18 (by norm_num), key 15 (by norm_num)]
    rw [div_div_div_cancel_right₀]
    · field_simp
      ring
    · exact ne_of_gt hden

/-- Witness for `compliance_forecast_savings_positive` at the spec's scenario
(vessel `v0`, 18 kn to 15 kn, 100000 nm per year). -/
theorem compliance_forecast_savings_positive_witness :
    (0 < v0.design_speed ∧ 0 < v0.design_consumption ∧ 0 < v0.deadweight ∧
      (0:ℚ) < 15 ∧ (15:ℚ) < 18 ∧ (0:ℚ) < 100000) ∧
    ∃ f, calculate_compliance_forecast v0 18 15 100000 = some f ∧
      0 < f.savings.fuel_savings ∧ 0 < f.savings.emission_savings ∧
      ((18:ℚ) = 18 → (15:ℚ) = 15 →
        f.proposed.annual_fuel / f.current.annual_fuel = (15/18) ^ 2) :=
  ⟨⟨by norm_num [v0], by norm_num [v0], by norm_num [v0], by norm_num, by norm_num, by norm_num⟩,
   compliance_forecast_savings_positive v0 18 15 100000 (by norm_num [v0])
     (by norm_num [v0]) (by norm_num [v0]) (by norm_num) (by norm_num) (by norm_num)⟩

/-- C2 (amended): `optimize_speed` performs no input validation of its own:
whenever the bounds are not inverted (`min_speed ≤ max_speed`) and the
solver's returned speed and the vessel's design speed are nonzero, it returns
a result — even for nonpositive `min_speed`, nonpositive `route_distance`,
negative `fuel_price` or negative `vessel_day_cost`.  Its only failure modes
are the solver's own rejection of inverted bounds and division by zero; no
descriptive fail-fast validation exists. -/
theorem optimize_speed_no_validation (v : VesselData) (d fp dr mn mx s : ℚ)
    (hb : mn ≤ mx) (hds : v.design_speed ≠ 0) (hs : s ≠ 0) :
    (optimize_speed v d fp dr mn mx s).isSome = true := by
  simp only [optimize_speed]
  rw [if_neg (not_lt.mpr hb), if_neg hds, if_neg (mul_ne_zero hs (by norm_num))]
  rfl

/-- Witness for `optimize_speed_no_validation` at a concrete input with
negative day rate and nonpositive distance. -/
theorem optimize_speed_no_validation_witness :
    ((8:ℚ) ≤ 24 ∧ v0.design_speed ≠ 0 ∧ (20:ℚ) ≠ 0) ∧
    (optimize_speed v0 (-5000) 600 (-25000) 8 24 20).isSome = true :=
  ⟨⟨by norm_num, by norm_num [v0], by norm_num⟩,
   optimize_speed_no_validation v0 (-5000) 600 (-25000) 8 24 20 (by norm_num)
     (by norm_num [v0]) (by norm_num)⟩

/-- C2 (counterexample to the claim as stated): with a negative fuel price —
an invalid input the claim says must raise — the optimizer still returns a
result, even when the solver speed 24 satisfies its contract (it is the
minimizer of the objective over the bounds [8, 24]). -/
theorem optimize_speed_accepts_negative_fuel_price :
    ((-100:ℚ) < 0) ∧
    (∀ u : ℚ, 8 ≤ u → u ≤ 24 →
      objective_function v0 5000 (-100) 20000 24
        ≤ objective_function v0 5000 (-100) 20000 u) ∧
    (optimize_speed v0 5000 (-100) 20000 8 24 24).isSome = true := by
  have key : ∀ w : ℚ, w ≠ 0 →
      objective_function v0 5000 (-100) 20000 w
        = -1875/4 * w ^ 2 + 12500000 / (3 * w) := by
    intro w hw
    simp only [objective_function, calculate_fuel_consumption, v0]
    field_simp
    ring
  refine ⟨by norm_num, ?_, ?_⟩
  · intro u h1 h2
    have hu : (0:ℚ) < u := by linarith
    rw [key 24 (by norm_num), key u (ne_of_gt hu)]
    have hA : -1875/4 * (24:ℚ)^2 ≤ -1875/4 * u^2 := by nlinarith
    have hB : (12500000:ℚ) / (3*24) ≤ 12500000 / (3*u) := by
      apply div_le_div_of_nonneg_left (by norm_num) (by positivity) (by linarith)
    linarith
  · simp only [optimize_speed]
    rw [if_neg (show ¬ (24:ℚ) < 8 by norm_num),
        if_neg (show ¬ v0.design_speed = 0 by norm_num [v0]),
        if_neg (show ¬ (24:ℚ) * 24 = 0 by norm_num)]
    rfl

/-- Sample count of the profile's `np.arange(min_speed, max_speed + step,
step)`: one more than `⌈(max_speed - min_speed) / step⌉`. -/
lemma arange_profile_count (mn mx step : ℚ) (hstep : 0 < step) (hle : mn ≤ mx) :
    Int.toNat ⌈(mx + step - mn) / step⌉ = Int.toNat ⌈(mx - mn) / step⌉ + 1 := by
  have hstep0 : step ≠ 0 := ne_of_gt hstep
  have hq : (mx + step - mn) / step = (mx - mn) / step + 1 := by
    field_simp
    ring
  have h0 : 0 ≤ ⌈(mx - mn) / step⌉ :=
    Int.ceil_nonneg (div_nonneg (by linarith) hstep.le)
  rw [hq, Int.ceil_add_one]
  omega

/-- Every element of an `arange` with positive step is at least its start. -/
lemma mem_arange_ge {x mn stop step : ℚ} (hstep : 0 < step)
    (hx : x ∈ arange mn stop step) : mn ≤ x := by
  obtain ⟨i, hi, hieq⟩ := List.mem_map.mp hx
  rw [← hieq]
  have h : (0:ℚ) ≤ (i:ℚ) * step := mul_nonneg (Nat.cast_nonneg i) hstep.le
  linarith

/-- The overshoot sample: `np.arange(8, 24.2 + 0.5, 0.5)` contains 24.5. -/
lemma arange_overshoot_sample : (49:ℚ)/2 ∈ arange 8 (121/5 + 1/2) (1/2) := by
  have hc : Int.toNat ⌈((121:ℚ)/5 + 1/2 - 8) / (1/2)⌉ = 34 := by
    rw [show ((121:ℚ)/5 + 1/2 - 8) / (1/2) = 167/5 by norm_num,
        show ⌈(167:ℚ)/5⌉ = 34 from Int.ceil_eq_iff.mpr (by norm_num)]
    rfl
  unfold arange
  rw [hc]
  exact List.mem_map.mpr ⟨33, List.mem_range.mpr (by norm_num), by norm_num⟩

/-- C3 (amended): for `0 < step` and `minSpeed ≤ maxSpeed` and
`K = ⌈(maxSpeed − minSpeed)/step⌉`, the profile samples exactly the speeds
`minSpeed + i·step` for `i = 0, …, K`; the last sampled speed lies in
`[maxSpeed, maxSpeed + step)` and equals `maxSpeed` exactly when
`maxSpeed − minSpeed` is a natural multiple of `step` — no clamping is
applied, so otherwise the last sample strictly exceeds `maxSpeed`. -/
theorem speed_profile_samples_arithmetic (v : VesselData) (d fp dr : ℚ)
    (mn mx step : ℚ) (K : ℕ) (hstep : 0 < step) (hle : mn ≤ mx)
    (hK : (K : ℤ) = ⌈(mx - mn) / step⌉) :
    (generate_speed_profile v d fp dr mn mx step).map SpeedProfilePoint.speed
        = (List.range (K + 1)).map (fun i : ℕ => mn + (i : ℚ) * step) ∧
    mx ≤ mn + (K : ℚ) * step ∧
    mn + (K : ℚ) * step < mx + step ∧
    (mn + (K : ℚ) * step = mx ↔ ∃ k : ℕ, mx - mn = (k : ℚ) * step) := by
  have hstep0 : step ≠ 0 := ne_of_gt hstep
  have hKQ : (K : ℚ) = ((⌈(mx - mn) / step⌉ : ℤ) : ℚ) := by
    exact_mod_cast congrArg (fun z : ℤ => (z : ℚ)) hK
  refine ⟨?_, ?_, ?_, ?_, ?_⟩
  · unfold generate_speed_profile
    rw [List.map_map]
    have hcomp : SpeedProfilePoint.speed ∘ profile_row v d fp dr = id := rfl
    rw [hcomp, List.map_id]
    unfold arange
    have hcount : Int.toNat ⌈(mx + step - mn) / step⌉ = K + 1 := by
      rw [arange_profile_count mn mx step hstep hle]
      omega
    rw [hcount]
  · have h1 : (mx - mn) / step ≤ (K:ℚ) := by
      rw [hKQ]
      exact Int.le_ceil _
    have h2 : (mx - mn) / step * step ≤ (K:ℚ) * step :=
      mul_le_mul_of_nonneg_right h1 hstep.le
    rw [div_mul_cancel₀ _ hstep0] at h2
    linarith
  · have h1 : (K:ℚ) < (mx - mn) / step + 1 := by
      rw [hKQ]
      exact Int.ceil_lt_add_one _
    have h2 : (K:ℚ) * step < ((mx - mn) / step + 1) * step :=
      mul_lt_mul_of_pos_right h1 hstep
    rw [add_mul, div_mul_cancel₀ _ hstep0] at h2
    linarith
  · intro h
    exact ⟨K, by linarith⟩
  · rintro ⟨k, hk⟩
    have hq : (mx - mn) / step = (k:ℚ) := by
      rw [hk, mul_div_cancel_right₀ _ hstep0]
    have hceil : ⌈(mx - mn) / step⌉ = (k:ℤ) := by
      rw [hq]
      exact_mod_cast Int.ceil_natCast k
    have hKk : K = k := by
      rw [hceil] at hK
      exact_mod_cast hK
    rw [hKk]
    linarith

/-- Witness for `speed_profile_samples_arithmetic` on the range [8, 12] with
step 2 (so `K = 2` and the samples are 8, 10, 12). -/
theorem speed_profile_samples_arithmetic_witness :
    ((0:ℚ) < 2 ∧ (8:ℚ) ≤ 12 ∧ ((2:ℕ) : ℤ) = ⌈((12:ℚ) - 8) / 2⌉) ∧
    ((generate_speed_profile v0 1000 500 20000 8 12 2).map SpeedProfilePoint.speed
        = (List.range (2 + 1)).map (fun i : ℕ => 8 + (i : ℚ) * 2) ∧
      (12:ℚ) ≤ 8 + ((2:ℕ) : ℚ) * 2 ∧
      8 + ((2:ℕ) : ℚ) * 2 < (12:ℚ) + 2 ∧
      (8 + ((2:ℕ) : ℚ) * 2 = 12 ↔ ∃ k : ℕ, (12:ℚ) - 8 = (k : ℚ) * 2)) :=
  ⟨⟨by norm_num, by norm_num,
    by rw [show ((12:ℚ) - 8) / 2 = 2 by norm_num]; exact (Int.ceil_intCast 2).symm⟩,
   speed_profile_samples_arithmetic v0 1000 500 20000 8 12 2 2 (by norm_num) (by norm_num)
     (by rw [show ((12:ℚ) - 8) / 2 = 2 by norm_num]; exact (Int.ceil_intCast 2).symm)⟩

/-- C3 (counterexample to the claim as stated): with bounds [8, 24.2] and step
0.5 the profile samples 24.5\, which exceeds `maxSpeed = 24.2` — the last
point is not clamped to `maxSpeed`. -/
theorem speed_profile_overshoots_max_speed :
    (8:ℚ) ≤ 121/5 ∧ (0:ℚ) < 1/2 ∧
    ∃ row ∈ generate_speed_profile v0 1000 500 20000 8 (121/5) (1/2),
      121/5 < row.speed := by
  refine ⟨by norm_num, by norm_num, ?_⟩
  refine ⟨profile_row v0 1000 500 20000 (49/2), ?_, ?_⟩
  · unfold generate_speed_profile
    exact List.mem_map_of_mem _ arange_overshoot_sample
  · show (121:ℚ)/5 < 49/2
    norm_num

/-- C1 (amended): under the solver contract — the returned speed lies in
`[minSpeed, maxSpeed]` and minimizes the objective there — `optimize_speed`
returns a result whose optimal speed is within the bounds and whose total
cost is at most the total cost of every `generate_speed_profile` row whose
sampled speed does not exceed `maxSpeed` (all rows whenever
`maxSpeed − minSpeed` is a multiple of `step`; the profile can overshoot
`maxSpeed` otherwise). -/
theorem optimizer_cost_le_profile_rows_within_bounds (v : VesselData)
    (d fp dr mn mx step s : ℚ)
    (hmn : 0 < mn) (hmm : mn ≤ mx) (hd : 0 < d) (hfp : 0 ≤ fp) (hdr : 0 ≤ dr)
    (hds : 0 < v.design_speed) (hstep : 0 < step)
    (hs1 : mn ≤ s) (hs2 : s ≤ mx)
    (hopt : ∀ u : ℚ, mn ≤ u → u ≤ mx →
      objective_function v d fp dr s ≤ objective_function v d fp dr u) :
    ∃ r, optimize_speed v d fp dr mn mx s = some r ∧
      r.optimal_speed = s ∧ mn ≤ r.optimal_speed ∧ r.optimal_speed ≤ mx ∧
      ∀ row ∈ generate_speed_profile v d fp dr mn mx step,
        row.speed ≤ mx → r.total_cost ≤ row.total_cost := by
  have hspos : (0:ℚ) < s := lt_of_lt_of_le hmn hs1
  refine ⟨optimize_speed_result v d fp dr s, ?_, rfl, hs1, hs2, ?_⟩
  · simp only [optimize_speed]
    rw [if_neg (not_lt.mpr hmm), if_neg (ne_of_gt hds),
        if_neg (mul_ne_zero (ne_of_gt hspos) (by norm_num))]
  · intro row hrow hrowle
    simp only [generate_speed_profile] at hrow
    obtain ⟨x, hx, rfl⟩ := List.mem_map.mp hrow
    have hxge : mn ≤ x := mem_arange_ge hstep hx
    have hxle : x ≤ mx := hrowle
    calc (optimize_speed_result v d fp dr s).total_cost
        = objective_function v d fp dr s := rfl
      _ ≤ objective_function v d fp dr x := hopt x hxge hxle
      _ = (profile_row v d fp dr x).total_cost := rfl

/-- Witness for `optimizer_cost_le_profile_rows_within_bounds` at the
degenerate bounds [20, 20], where the solver contract holds trivially. -/
theorem optimizer_cost_le_profile_rows_within_bounds_witness :
    ((0:ℚ) < 20 ∧ (20:ℚ) ≤ 20 ∧ (0:ℚ) < 8200 ∧ (0:ℚ) ≤ 600 ∧ (0:ℚ) ≤ 25000 ∧
      0 < v0.design_speed ∧ (0:ℚ) < 1) ∧
    ∃ r, optimize_speed v0 8200 600 25000 20 20 20 = some r ∧
      r.optimal_speed = 20 ∧ (20:ℚ) ≤ r.optimal_speed ∧ r.optimal_speed ≤ 20 ∧
      ∀ row ∈ generate_speed_profile v0 8200 600 25000 20 20 1,
        row.speed ≤ 20 → r.total_cost ≤ row.total_cost :=
  ⟨⟨by norm_num, le_refl _, by norm_num, by norm_num, by norm_num,
    by norm_num [v0], by norm_num⟩,
   optimizer_cost_le_profile_rows_within_bounds v0 8200 600 25000 20 20 1 20
     (by norm_num) (le_refl _) (by norm_num) (by norm_num) (by norm_num)
     (by norm_num [v0]) (by norm_num) (le_refl _) (le_refl _)
     (fun u h1 h2 => by rw [le_antisymm h2 h1])⟩

/-- C1 (counterexample to the claim as stated): with bounds [8, 24.2], step
0.5, zero fuel price and positive day rate, the objective is strictly
decreasing, so the bounded minimum sits at `maxSpeed = 24.2`; yet the profile
samples the overshoot speed 24.5 whose total cost is strictly below the
optimizer's reported total cost — so the optimum is not ≤ every profile row. -/
theorem optimizer_cost_exceeds_overshoot_row :
    ((0:ℚ) < 8 ∧ (8:ℚ) ≤ 121/5 ∧ (0:ℚ) < 1000 ∧ (0:ℚ) ≤ 0 ∧ (0:ℚ) ≤ 1000 ∧
      0 < v0.design_speed ∧ (0:ℚ) < 1/2) ∧
    (∀ u : ℚ, 8 ≤ u → u ≤ 121/5 →
      objective_function v0 1000 0 1000 (121/5) ≤ objective_function v0 1000 0 1000 u) ∧
    ∃ r, optimize_speed v0 1000 0 1000 8 (121/5) (121/5) = some r ∧
      ∃ row ∈ generate_speed_profile v0 1000 0 1000 8 (121/5) (1/2),
        row.total_cost < r.total_cost := by
  have key : ∀ w : ℚ, w ≠ 0 →
      objective_function v0 1000 0 1000 w = 125000 / (3 * w) := by
    intro w hw
    simp only [objective_function, calculate_fuel_consumption, v0]
    field_simp
    ring
  refine ⟨⟨by norm_num, by norm_num, by norm_num, le_refl _, by norm_num,
      by norm_num [v0], by norm_num⟩, ?_, ?_⟩
  · intro u h1 h2
    have hu : (0:ℚ) < u := by linarith
    rw [key (121/5) (by norm_num), key u (ne_of_gt hu)]
    exact div_le_div_of_nonneg_left (by norm_num) (by positivity) (by linarith)
  · refine ⟨optimize_speed_result v0 1000 0 1000 (121/5), ?_, ?_⟩
    · simp only [optimize_speed]
      rw [if_neg (show ¬(121:ℚ)/5 < 8 by norm_num),
          if_neg (show ¬v0.design_speed = 0 by norm_num [v0]),
          if_neg (show ¬(121:ℚ)/5 * 24 = 0 by norm_num)]
    · refine ⟨profile_row v0 1000 0 1000 (49/2), ?_, ?_⟩
      · unfold generate_speed_profile
        exact List.mem_map_of_mem _ arange_overshoot_sample
      · show (profile_row v0 1000 0 1000 (49/2)).total_cost
            < (optimize_speed_result v0 1000 0 1000 (121/5)).total_cost
        have h1 : (profile_row v0 1000 0 1000 (49/2)).total_cost
            = objective_function v0 1000 0 1000 (49/2) := rfl
        have h2 : (optimize_speed_result v0 1000 0 1000 (121/5)).total_cost
            = objective_function v0 1000 0 1000 (121/5) := rfl
        rw [h1, h2, key (49/2) (by norm_num), key (121/5) (by norm_num)]
        norm_num

end SlowSteaming
